import Mathlib

/-!
Verification of the Symphony Labs storefront checkout/payment core.

Each definition below is a shallow embedding of a function of the
repository, translated from its TypeScript source:

* coupon evaluation        — `validateCoupon` in `src/lib/supabase.ts`
* order creation           — `POST` in `src/app/api/orders/create/route.ts`
* paid settlement          — `POST` (mark-paid) endpoint
* payment-screen polling   — `fetchInvoiceStatus` in `CustomBTCPayCheckout.tsx`
* invoice payment methods  — `POST` (create-invoice) endpoint
* shipping-notification sweep — `scripts/send-scheduled-shipping-notifications.ts`

Currency amounts are modelled as rationals, timestamps as integers, product
stock as integers (the database column is an integer).  JavaScript
truthiness of optional numeric fields (0 is falsy) is encoded explicitly
where the source relies on it.
-/

namespace SymphonyLabs

/-! ### Coupon evaluator (src/lib/supabase.ts, validateCoupon) -/

inductive DiscountType
  | percentage
  | fixed
deriving DecidableEq, Repr

inductive Applicability
  | all
  | specific
deriving DecidableEq, Repr

structure Coupon where
  code : String
  discount_type : DiscountType
  discount_value : ℚ
  minimum_order_amount : Option ℚ
  max_uses : Option ℕ
  current_uses : ℕ
  one_per_customer : Bool
  valid_from : ℤ
  valid_until : Option ℤ
  active : Bool
  applicable_to : Applicability
  product_ids : Option (List String)
deriving DecidableEq, Repr

structure CouponResult where
  valid : Bool
  error : Option String
  discount : Option ℚ
deriving DecidableEq, Repr

/-- Guard 3 of `validateCoupon`: `coupon.valid_until` is set and `now` is
past it (`now > validUntil`). -/
def pastValidUntil (coupon : Coupon) (now : ℤ) : Bool :=
  match coupon.valid_until with
  | some validUntil => decide (validUntil < now)
  | none => false

/-- Guard 4 of `validateCoupon`: `coupon.max_uses && current_uses >= max_uses`.
A zero `max_uses` is falsy in JavaScript, so the guard is skipped then. -/
def usageLimitReached (coupon : Coupon) : Bool :=
  match coupon.max_uses with
  | some maxUses => decide (maxUses ≠ 0) && decide (maxUses ≤ coupon.current_uses)
  | none => false

/-- Guard 5 of `validateCoupon`:
`coupon.minimum_order_amount && orderTotal < coupon.minimum_order_amount`.
A zero threshold is falsy in JavaScript, so the guard is skipped then. -/
def belowMinimum (coupon : Coupon) (orderTotal : ℚ) : Bool :=
  match coupon.minimum_order_amount with
  | some minAmount => decide (minAmount ≠ 0) && decide (orderTotal < minAmount)
  | none => false

/-- Guard 6 of `validateCoupon`: the applicability check runs only when
`applicable_to` is specific AND `product_ids` AND `cartProductIds` are both
present (non-null arrays are truthy in JavaScript, even empty ones); it
fails when no cart product id is contained in the coupon product id set. -/
def notApplicable (coupon : Coupon) (cartProductIds : Option (List String)) : Bool :=
  match coupon.applicable_to, coupon.product_ids, cartProductIds with
  | Applicability.specific, some productIds, some cartIds =>
      !(cartIds.any (fun id => productIds.contains id))
  | _, _, _ => false

/-- Discount computation of `validateCoupon`: percentage type is
`orderTotal * value / 100`, fixed type is the raw value, both capped at
the order total with `Math.min`. -/
def couponDiscountAmount (coupon : Coupon) (orderTotal : ℚ) : ℚ :=
  let d : ℚ :=
    match coupon.discount_type with
    | DiscountType.percentage => orderTotal * coupon.discount_value / 100
    | DiscountType.fixed => coupon.discount_value
  min d orderTotal

/-- The coupon evaluator `validateCoupon` of `src/lib/supabase.ts`.
Guards run in source order and short-circuit on the first failure.  The
customer email parameter is accepted but unused, exactly as in the source
(one-per-customer enforcement happens in the caller).  Display formatting
of the minimum-amount threshold inside the error message is abstracted. -/
def validateCoupon (coupon : Coupon) (now : ℤ) (orderTotal : ℚ)
    (_customerEmail : Option String) (cartProductIds : Option (List String)) :
    CouponResult :=
  if !coupon.active then
    { valid := false, error := some "This coupon is not active", discount := none }
  else if decide (now < coupon.valid_from) then
    { valid := false, error := some "This coupon is not yet valid", discount := none }
  else if pastValidUntil coupon now then
    { valid := false, error := some "This coupon has expired", discount := none }
  else if usageLimitReached coupon then
    { valid := false, error := some "This coupon has reached its usage limit", discount := none }
  else if belowMinimum coupon orderTotal then
    { valid := false, error := some "Minimum order amount required", discount := none }
  else if notApplicable coupon cartProductIds then
    { valid := false, error := some "This coupon is not applicable to items in your cart",
      discount := none }
  else
    { valid := true, error := none, discount := some (couponDiscountAmount coupon orderTotal) }

/-! ### Order creation (src/app/api/orders/create/route.ts, POST) -/

structure SelectedModifier where
  id : String
  label : String
  priceAdjustment : ℚ
deriving DecidableEq, Repr

structure OrderItem where
  id : String
  name : String
  price : ℚ
  quantity : ℕ
  selectedModifiers : Option (List SelectedModifier)
deriving DecidableEq, Repr

/-- Modifier price adjustment sum of one line item:
`item.selectedModifiers?.reduce((modSum, mod) => modSum + mod.priceAdjustment, 0) ?? 0`. -/
def modifierTotal (item : OrderItem) : ℚ :=
  match item.selectedModifiers with
  | some mods => mods.foldl (fun modSum m => modSum + m.priceAdjustment) 0
  | none => 0

/-- The `calculatedSubtotal` reduce of the create-order route:
each item contributes `(price + modifierTotal) * quantity`. -/
def calculatedSubtotal (items : List OrderItem) : ℚ :=
  items.foldl (fun sum item => sum + (item.price + modifierTotal item) * (item.quantity : ℚ)) 0

structure CreateOrderRequest where
  items : List OrderItem
  totalAmount : ℚ
  shippingCost : Option ℚ
  couponCode : Option String
  couponDiscount : Option ℚ
deriving DecidableEq, Repr

/-- The `calculatedTotal` of the create-order route:
`calculatedSubtotal + (shippingCost ?? 0) - (couponDiscount ?? 0)`. -/
def calculatedTotal (req : CreateOrderRequest) : ℚ :=
  calculatedSubtotal req.items + req.shippingCost.getD 0 - req.couponDiscount.getD 0

inductive CreateOrderError
  | productNotFound (productName : String)
  | insufficientStock (productName : String) (availableStock : ℤ)
  | totalMismatch
deriving DecidableEq, Repr

/-- The per-item stock-availability loop of the create-order route: the
first missing product or the first item whose requested quantity exceeds
the fetched stock aborts the request with the corresponding error. -/
def checkStock (products : String → Option ℤ) : List OrderItem → Option CreateOrderError
  | [] => none
  | item :: rest =>
    match products item.id with
    | none => some (CreateOrderError.productNotFound item.name)
    | some stock =>
      if stock < (item.quantity : ℤ) then
        some (CreateOrderError.insufficientStock item.name stock)
      else
        checkStock products rest

structure CreatedOrder where
  status : String
  total_amount : ℚ
  items : List OrderItem
  shipping_cost : Option ℚ
  coupon_code : Option String
  coupon_discount : Option ℚ
deriving DecidableEq, Repr

/-- The row inserted into `orders` on the success path of the create-order
route (address fields elided; `status` is the literal "pending"). -/
def buildOrder (req : CreateOrderRequest) : CreatedOrder :=
  { status := "pending", total_amount := req.totalAmount, items := req.items,
    shipping_cost := req.shippingCost, coupon_code := req.couponCode,
    coupon_discount := req.couponDiscount }

/-- The create-order route (validated-input part): stock checks run first,
then the independently recomputed total must match the caller-supplied
total within an absolute tolerance of 0.01, and only then is the order
persisted with status "pending". -/
def createOrder (products : String → Option ℤ) (req : CreateOrderRequest) :
    Except CreateOrderError CreatedOrder :=
  match checkStock products req.items with
  | some e => Except.error e
  | none =>
    if |calculatedTotal req - req.totalAmount| > 1 / 100 then
      Except.error CreateOrderError.totalMismatch
    else
      Except.ok (buildOrder req)

/-! ### Paid settlement (the mark-paid POST endpoint) -/

structure OrderLineItem where
  id : String
  quantity : ℕ
  name : String
deriving DecidableEq, Repr

structure StoredOrder where
  status : String
  items : List OrderLineItem
  paid_at : Option ℤ
deriving DecidableEq, Repr

structure DBState where
  orders : String → Option StoredOrder
  products : String → Option ℤ

/-- One iteration of the stock-decrement loop of the mark-paid endpoint:
fetch the current stock (a missing product is skipped and processing
continues) and write `Math.max(0, stock - quantity)` back. -/
def decrementStep (ps : String → Option ℤ) (item : OrderLineItem) : String → Option ℤ :=
  match ps item.id with
  | none => ps
  | some stock =>
    let newStock := max 0 (stock - (item.quantity : ℤ))
    fun pid => if pid = item.id then some newStock else ps pid

/-- The whole stock-decrement loop over the line items of an order. -/
def decrementItems (ps : String → Option ℤ) (items : List OrderLineItem) :
    String → Option ℤ :=
  items.foldl decrementStep ps

inductive MarkPaidResult
  | orderNotFound
  | alreadyPaid
  | updateFailed
  | paidOk
deriving DecidableEq, Repr

/-- Responses of the mark-paid endpoint that carry `success: true`. -/
def MarkPaidResult.isSuccess : MarkPaidResult → Bool
  | MarkPaidResult.alreadyPaid => true
  | MarkPaidResult.paidOk => true
  | _ => false

/-- The mark-paid endpoint: fetch the order (404 when absent), short-circuit
with a success response when the status is already "paid", otherwise run
the stock-decrement loop and then update the order status to "paid" with a
paid timestamp.  `statusUpdateFails` models the final database update
failing: the endpoint then returns a 500 error, the stock decrements
already written persist, and the order status stays unchanged. -/
def markPaid (statusUpdateFails : Bool) (now : ℤ) (s : DBState) (orderId : String) :
    DBState × MarkPaidResult :=
  match s.orders orderId with
  | none => (s, MarkPaidResult.orderNotFound)
  | some ord =>
    if ord.status = "paid" then
      (s, MarkPaidResult.alreadyPaid)
    else
      let products2 := decrementItems s.products ord.items
      if statusUpdateFails then
        ({ orders := s.orders, products := products2 }, MarkPaidResult.updateFailed)
      else
        ({ orders := fun oid =>
             if oid = orderId then some { ord with status := "paid", paid_at := some now }
             else s.orders oid,
           products := products2 }, MarkPaidResult.paidOk)

/-! ### Payment-screen status poller (CustomBTCPayCheckout.tsx) -/

/-- The status test of `fetchInvoiceStatus`:
`data.status === "Settled" || data.status === "Processing"`. -/
def terminalEquiv (status : String) : Bool :=
  status = "Settled" || status = "Processing"

/-- Sequential runs of `fetchInvoiceStatus` over a list of observed invoice
statuses, threading the `completionTriggered` flag; returns the indices of
the observations at which `onComplete` fires. -/
def pollFiresFrom : ℕ → Bool → List String → List ℕ
  | _, _, [] => []
  | i, completionTriggered, status :: rest =>
    if terminalEquiv status && !completionTriggered then
      i :: pollFiresFrom (i + 1) true rest
    else
      pollFiresFrom (i + 1) completionTriggered rest

/-- Firing indices of a whole polling session, starting untriggered. -/
def pollFireIndices (statuses : List String) : List ℕ :=
  pollFiresFrom 0 false statuses

/-! ### Invoice payment-method filter (the create-invoice POST endpoint) -/

/-- The payment-method filter sent to BTCPay, derived from the customer's
`preferredCrypto`: "monero" yields `["XMR"]`, "bitcoin" yields `["BTC"]`,
anything else yields `["BTC", "XMR"]`. -/
def paymentMethodsFor (preferredCrypto : Option String) : List String :=
  if preferredCrypto = some "monero" then ["XMR"]
  else if preferredCrypto = some "bitcoin" then ["BTC"]
  else ["BTC", "XMR"]

/-! ### Scheduled shipping-notification sweep
(scripts/send-scheduled-shipping-notifications.ts) -/

structure SweepOrder where
  id : String
  order_number : String
  shipping_email : Option String
  shipping_name : Option String
  tracking_number : Option String
  shipping_tracking_url : Option String
  shipping_notification_scheduled_at : Option ℤ
  shipping_notification_sent_at : Option ℤ
deriving DecidableEq, Repr

/-- The selection predicate of the sweep query in
`processPendingNotifications`: scheduled timestamp set and not after `now`,
sent timestamp null, shipping email, tracking number and tracking URL all
non-null. -/
def sweepSelects (now : ℤ) (o : SweepOrder) : Bool :=
  (match o.shipping_notification_scheduled_at with
   | some t => decide (t ≤ now)
   | none => false) &&
  o.shipping_notification_sent_at.isNone &&
  o.shipping_email.isSome &&
  o.tracking_number.isSome &&
  o.shipping_tracking_url.isSome

/-- Selection predicate as the specification sentence words it: scheduled
timestamp set and in the past, sent timestamp absent, tracking fields
populated.  Kept separate from `sweepSelects` to compare the two. -/
def specSweepSelects (now : ℤ) (o : SweepOrder) : Bool :=
  (match o.shipping_notification_scheduled_at with
   | some t => decide (t ≤ now)
   | none => false) &&
  o.shipping_notification_sent_at.isNone &&
  o.tracking_number.isSome &&
  o.shipping_tracking_url.isSome

/-- Per-order processing of the sweep: attempt the shipping email
(`sendOk` is the delivery outcome) and stamp
`shipping_notification_sent_at` only when the send succeeded; a failed
send leaves the order untouched. -/
def processOrder (sendOk : String → Bool) (sentTime : ℤ) (o : SweepOrder) : SweepOrder :=
  if sendOk o.id then { o with shipping_notification_sent_at := some sentTime } else o

/-- One sweep run: every selected order is processed independently, all
other orders are untouched. -/
def sweep (sendOk : String → Bool) (now sentTime : ℤ) (orders : List SweepOrder) :
    List SweepOrder :=
  orders.map (fun o => if sweepSelects now o then processOrder sendOk sentTime o else o)

/-! ### Concrete fixtures used to instantiate the theorems -/

/-- Scenario A coupon of the spec: percentage 10%, minimum order 50, active. -/
def save10 : Coupon :=
  { code := "SAVE10", discount_type := DiscountType.percentage, discount_value := 10,
    minimum_order_amount := some 50, max_uses := none, current_uses := 0,
    one_per_customer := false, valid_from := 0, valid_until := none,
    active := true, applicable_to := Applicability.all, product_ids := none }

/-- An otherwise-valid coupon restricted to the single product id p1. -/
def specificCoupon : Coupon :=
  { code := "SPEC", discount_type := DiscountType.fixed, discount_value := 5,
    minimum_order_amount := none, max_uses := none, current_uses := 0,
    one_per_customer := false, valid_from := 0, valid_until := none,
    active := true, applicable_to := Applicability.specific, product_ids := some ["p1"] }

/-- A catalog with a single product p1 holding 2 units of stock. -/
def scProducts : String → Option ℤ := fun pid => if pid = "p1" then some 2 else none

/-- Scenario C line item: 5 units of p1 requested while only 2 are stocked. -/
def scItem : OrderItem :=
  { id := "p1", name := "Widget", price := 20, quantity := 5, selectedModifiers := none }

/-- Scenario C create-order request. -/
def scReq : CreateOrderRequest :=
  { items := [scItem], totalAmount := 100, shippingCost := none,
    couponCode := none, couponDiscount := none }

/-- A well-formed request: 2 units at 20 with a +5 modifier, shipping 5,
so the expected total is (20+5)*2+5 = 55. -/
def okReq : CreateOrderRequest :=
  { items := [{ id := "p1", name := "Widget", price := 20, quantity := 2,
                selectedModifiers := some [{ id := "m1", label := "color",
                                             priceAdjustment := 5 }] }],
    totalAmount := 55, shippingCost := some 5, couponCode := none, couponDiscount := none }

/-- A pending stored order for 5 units of p1. -/
def ord0 : StoredOrder :=
  { status := "pending",
    items := [{ id := "p1", quantity := 5, name := "Widget" }],
    paid_at := none }

/-- A database with order o1 pending and 2 units of p1 stocked. -/
def db0 : DBState :=
  { orders := fun oid => if oid = "o1" then some ord0 else none,
    products := fun pid => if pid = "p1" then some 2 else none }

/-- An order due for a shipping notification, with tracking fields populated
but no shipping email on record. -/
def emailLessOrder : SweepOrder :=
  { id := "o1", order_number := "ORD-1", shipping_email := none,
    shipping_name := some "Ann", tracking_number := some "TRK1",
    shipping_tracking_url := some "https://track.example/1",
    shipping_notification_scheduled_at := some 0,
    shipping_notification_sent_at := none }

/-- Scenario D order: scheduled in the past, not yet sent, email and
tracking fields populated. -/
def scenD : SweepOrder :=
  { id := "o2", order_number := "ORD-2", shipping_email := some "a@example.com",
    shipping_name := some "Ann", tracking_number := some "TRK2",
    shipping_tracking_url := some "https://track.example/2",
    shipping_notification_scheduled_at := some 0,
    shipping_notification_sent_at := none }

/-! ### Theorems -/

/-- C6: for every coupon that passes all validity checks, the computed
discount is min(subtotal × value/100, subtotal) for a percentage coupon and
min(value, subtotal) for a fixed coupon, and in both cases it never exceeds
the subtotal. -/
theorem validateCoupon_discount_formula (coupon : Coupon) (now : ℤ) (orderTotal : ℚ)
    (email : Option String) (cartIds : Option (List String)) (d : ℚ)
    (h : validateCoupon coupon now orderTotal email cartIds
        = { valid := true, error := none, discount := some d }) :
    (coupon.discount_type = DiscountType.percentage →
        d = min (orderTotal * coupon.discount_value / 100) orderTotal) ∧
    (coupon.discount_type = DiscountType.fixed →
        d = min coupon.discount_value orderTotal) ∧
    d ≤ orderTotal := by
  have hd : d = couponDiscountAmount coupon orderTotal := by
    unfold validateCoupon at h
    split_ifs at h <;> simp_all
  subst hd
  refine ⟨?_, ?_, ?_⟩
  · intro hp
    simp [couponDiscountAmount, hp]
  · intro hp
    simp [couponDiscountAmount, hp]
  · simp [couponDiscountAmount]

theorem validateCoupon_discount_formula_witness :
    (10 : ℚ) = min ((100 : ℚ) * 10 / 100) 100 ∧ (10 : ℚ) ≤ 100 := by
  have h := validateCoupon_discount_formula save10 100 100 none none 10 (by
    norm_num [validateCoupon, pastValidUntil, usageLimitReached, belowMinimum,
      notApplicable, couponDiscountAmount, save10])
  exact ⟨h.1 rfl, h.2.2⟩

/-- C7 counterexample: for a coupon restricted to specific products that
passes every earlier check, an ABSENT cart product id list makes the source
skip the applicability check entirely and accept the coupon, where the
claim says the evaluator returns invalid for every cart list including an
absent one. -/
theorem validateCoupon_absent_cart_accepted :
    (validateCoupon specificCoupon 100 10 none none).valid = true := by
  decide

/-- C7 (amended): for a coupon with specific applicability that passes the
earlier checks, a SUPPLIED cart product id list with no id in the coupon
product id set (including the empty list) yields invalid with the
not-applicable error; an absent cart list skips the check and the coupon is
accepted. -/
theorem validateCoupon_specific_applicability (coupon : Coupon) (now : ℤ)
    (orderTotal : ℚ) (email : Option String) (productIds cartIds : List String)
    (hactive : coupon.active = true)
    (hfrom : coupon.valid_from ≤ now)
    (huntil : pastValidUntil coupon now = false)
    (husage : usageLimitReached coupon = false)
    (hmin : belowMinimum coupon orderTotal = false)
    (happ : coupon.applicable_to = Applicability.specific)
    (hpids : coupon.product_ids = some productIds)
    (hdisj : cartIds.any (fun id => productIds.contains id) = false) :
    validateCoupon coupon now orderTotal email (some cartIds)
      = { valid := false,
          error := some "This coupon is not applicable to items in your cart",
          discount := none } ∧
    (validateCoupon coupon now orderTotal email none).valid = true := by
  have hna : notApplicable coupon (some cartIds) = true := by
    unfold notApplicable
    rw [happ, hpids]
    simpa using hdisj
  have hnone : notApplicable coupon none = false := by
    simp [notApplicable, happ, hpids]
  constructor
  · simp [validateCoupon, hactive, huntil, husage, hmin, hna, not_lt.mpr hfrom]
  · simp [validateCoupon, hactive, huntil, husage, hmin, hnone, not_lt.mpr hfrom]

theorem validateCoupon_specific_applicability_witness :
    validateCoupon specificCoupon 100 10 none (some ["p2"])
      = { valid := false,
          error := some "This coupon is not applicable to items in your cart",
          discount := none } ∧
    (validateCoupon specificCoupon 100 10 none none).valid = true := by
  have h := validateCoupon_specific_applicability specificCoupon 100 10 none
    ["p1"] ["p2"] (by decide) (by decide) (by decide) (by decide) (by decide)
    (by decide) (by decide) (by decide)
  exact h

/-- Whenever some line item of the list refers to a missing product or
requests more than the stocked quantity, the stock-availability loop
reports an error. -/
lemma checkStock_some_of_bad (products : String → Option ℤ) :
    ∀ (items : List OrderItem) (item : OrderItem), item ∈ items →
    (products item.id = none ∨
      ∃ stock, products item.id = some stock ∧ stock < (item.quantity : ℤ)) →
    ∃ e, checkStock products items = some e := by
  intro items
  induction items with
  | nil =>
    intro item hmem
    cases hmem
  | cons head rest ih =>
    intro item hmem hbad
    cases hps : products head.id with
    | none =>
      exact ⟨CreateOrderError.productNotFound head.name, by simp [checkStock, hps]⟩
    | some stock =>
      by_cases hlt : stock < (head.quantity : ℤ)
      · exact ⟨CreateOrderError.insufficientStock head.name stock,
          by simp [checkStock, hps, hlt]⟩
      · have hrest : item ∈ rest := by
          rcases List.mem_cons.mp hmem with heq | hrest
          · subst heq
            rcases hbad with hne | ⟨stock2, hs2, hlt2⟩
            · rw [hps] at hne
              exact absurd hne (by simp)
            · rw [hps] at hs2
              cases hs2
              exact absurd hlt2 hlt
          · exact hrest
        obtain ⟨e, he⟩ := ih item hrest hbad
        exact ⟨e, by simp [checkStock, hps, hlt, he]⟩

/-- C1: the create-order route independently recomputes the total as the
sum over line items of (unit price + modifier deltas) × quantity plus
shipping minus coupon discount; a deviation beyond 0.01 from the supplied
total rejects the request with no order persisted, and a request that also
passes the stock checks creates an order whose status is "pending". -/
theorem createOrder_total_validation (products : String → Option ℤ)
    (req : CreateOrderRequest) :
    (|calculatedTotal req - req.totalAmount| > 1 / 100 →
        ∀ o, createOrder products req ≠ Except.ok o) ∧
    (checkStock products req.items = none →
        |calculatedTotal req - req.totalAmount| ≤ 1 / 100 →
        createOrder products req = Except.ok (buildOrder req) ∧
        (buildOrder req).status = "pending") := by
  constructor
  · intro hmis o
    unfold createOrder
    cases hcs : checkStock products req.items with
    | some e => simp
    | none =>
      rw [if_pos hmis]
      simp
  · intro hcs htol
    unfold createOrder
    rw [hcs]
    rw [if_neg (not_lt.mpr htol)]
    exact ⟨rfl, rfl⟩

theorem createOrder_total_validation_witness :
    createOrder scProducts okReq = Except.ok (buildOrder okReq) ∧
    (buildOrder okReq).status = "pending" :=
  (createOrder_total_validation scProducts okReq).2 (by rfl)
    (by norm_num [calculatedTotal, calculatedSubtotal, modifierTotal, okReq])

/-- C8: during checkout validation each line item is checked against the
current product record; a missing product fails the whole request with a
product-not-found error carrying the product name, a requested quantity
exceeding stock fails it with an insufficient-stock error carrying the
product name and the available stock, and in either case no order is
created. -/
theorem createOrder_stock_rejection (products : String → Option ℤ)
    (req : CreateOrderRequest) :
    (∀ e, checkStock products req.items = some e →
        createOrder products req = Except.error e) ∧
    (∀ (item : OrderItem) (rest : List OrderItem), products item.id = none →
        checkStock products (item :: rest)
          = some (CreateOrderError.productNotFound item.name)) ∧
    (∀ (item : OrderItem) (rest : List OrderItem) (stock : ℤ),
        products item.id = some stock → stock < (item.quantity : ℤ) →
        checkStock products (item :: rest)
          = some (CreateOrderError.insufficientStock item.name stock)) ∧
    (∀ item ∈ req.items,
        (products item.id = none ∨
          ∃ stock, products item.id = some stock ∧ stock < (item.quantity : ℤ)) →
        ∃ e, createOrder products req = Except.error e) := by
  refine ⟨?_, ?_, ?_, ?_⟩
  · intro e he
    unfold createOrder
    rw [he]
  · intro item rest hnone
    simp [checkStock, hnone]
  · intro item rest stock hs hlt
    simp [checkStock, hs, hlt]
  · intro item hmem hbad
    obtain ⟨e, he⟩ := checkStock_some_of_bad products req.items item hmem hbad
    exact ⟨e, by unfold createOrder; rw [he]⟩

theorem createOrder_stock_rejection_witness :
    checkStock scProducts [scItem]
      = some (CreateOrderError.insufficientStock "Widget" 2) ∧
    createOrder scProducts scReq
      = Except.error (CreateOrderError.insufficientStock "Widget" 2) := by
  have h := createOrder_stock_rejection scProducts scReq
  have hone := h.2.2.1 scItem [] 2 (by rfl) (by decide)
  exact ⟨hone, h.1 _ hone⟩

/-- The stock-decrement loop preserves non-negativity of every stored
stock value. -/
lemma decrementItems_nonneg :
    ∀ (items : List OrderLineItem) (ps : String → Option ℤ),
    (∀ pid st, ps pid = some st → 0 ≤ st) →
    ∀ pid st, decrementItems ps items pid = some st → 0 ≤ st := by
  intro items
  induction items with
  | nil =>
    intro ps hinv pid st h
    exact hinv pid st h
  | cons head rest ih =>
    intro ps hinv pid st h
    have hstep : ∀ pid2 st2, decrementStep ps head pid2 = some st2 → 0 ≤ st2 := by
      intro pid2 st2 h2
      unfold decrementStep at h2
      cases hh : ps head.id with
      | none =>
        rw [hh] at h2
        exact hinv _ _ h2
      | some s0 =>
        rw [hh] at h2
        dsimp only at h2
        by_cases hp : pid2 = head.id
        · rw [if_pos hp] at h2
          cases h2
          exact le_max_left 0 _
        · rw [if_neg hp] at h2
          exact hinv _ _ h2
    have hfold : decrementItems ps (head :: rest) = decrementItems (decrementStep ps head) rest := by
      simp [decrementItems]
    rw [hfold] at h
    exact ih (decrementStep ps head) hstep pid st h

/-- C2: marking an order paid a second time, once its stored status is
"paid", short-circuits on the status check: the database is not mutated
again, the response is still a success, and so the stock decrement of the
first settlement is the only one that ever happens. -/
theorem markPaid_settle_twice (s : DBState) (orderId : String) (ord : StoredOrder)
    (now now2 : ℤ) (hord : s.orders orderId = some ord) :
    markPaid false now2 (markPaid false now s orderId).1 orderId
      = ((markPaid false now s orderId).1, MarkPaidResult.alreadyPaid) ∧
    MarkPaidResult.isSuccess MarkPaidResult.alreadyPaid = true ∧
    (ord.status ≠ "paid" →
        (markPaid false now s orderId).1.products = decrementItems s.products ord.items) := by
  by_cases hst : ord.status = "paid"
  · have h1 : markPaid false now s orderId = (s, MarkPaidResult.alreadyPaid) := by
      simp [markPaid, hord, hst]
    rw [h1]
    refine ⟨?_, rfl, fun hne => absurd hst hne⟩
    simp [markPaid, hord, hst]
  · have h1 : (markPaid false now s orderId).1
        = { orders := fun oid =>
              if oid = orderId then some { ord with status := "paid", paid_at := some now }
              else s.orders oid,
            products := decrementItems s.products ord.items } := by
      simp [markPaid, hord, hst]
    refine ⟨?_, rfl, fun _ => by rw [h1]⟩
    rw [h1]
    simp [markPaid]

theorem markPaid_settle_twice_witness :
    markPaid false 9 (markPaid false 7 db0 "o1").1 "o1"
      = ((markPaid false 7 db0 "o1").1, MarkPaidResult.alreadyPaid) ∧
    (markPaid false 7 db0 "o1").1.products "p1" = some 0 := by
  have h := markPaid_settle_twice db0 "o1" ord0 7 9 (by rfl)
  refine ⟨h.1, ?_⟩
  rw [h.2.2 (by decide)]
  decide

/-- C4: each settlement stock write stores max(0, current stock − ordered
quantity); whenever the ordered quantity reaches or exceeds the current
stock the stored value is exactly 0, and the settlement loop preserves
non-negativity of all stock values. -/
theorem settlement_stock_clamped (ps : String → Option ℤ) (item : OrderLineItem)
    (stock : ℤ) (h : ps item.id = some stock) :
    decrementStep ps item item.id = some (max 0 (stock - (item.quantity : ℤ))) ∧
    (stock ≤ (item.quantity : ℤ) → decrementStep ps item item.id = some 0) ∧
    (∀ (ps2 : String → Option ℤ) (items : List OrderLineItem),
        (∀ pid st, ps2 pid = some st → 0 ≤ st) →
        ∀ pid st, decrementItems ps2 items pid = some st → 0 ≤ st) := by
  refine ⟨?_, ?_, ?_⟩
  · simp [decrementStep, h]
  · intro hle
    have hmax : max 0 (stock - (item.quantity : ℤ)) = 0 :=
      max_eq_left (by omega)
    simp [decrementStep, h, hmax]
  · intro ps2 items hinv pid st h2
    exact decrementItems_nonneg items ps2 hinv pid st h2

theorem settlement_stock_clamped_witness :
    decrementStep db0.products { id := "p1", quantity := 5, name := "Widget" } "p1"
      = some (max 0 ((2 : ℤ) - 5)) ∧
    decrementStep db0.products { id := "p1", quantity := 5, name := "Widget" } "p1"
      = some 0 := by
  have h := settlement_stock_clamped db0.products
    { id := "p1", quantity := 5, name := "Widget" } 2 (by rfl)
  exact ⟨h.1, h.2.1 (by decide)⟩

/-- C10: when the final status update of the mark-paid endpoint fails, the
endpoint reports the failure, the stock decrements already written persist,
and the order status stays unchanged; a retry then passes the already-paid
check again and decrements stock a second time before succeeding. -/
theorem markPaid_update_failure_redecrements (s : DBState) (orderId : String)
    (ord : StoredOrder) (now now2 : ℤ)
    (hord : s.orders orderId = some ord) (hstat : ¬ord.status = "paid") :
    (markPaid true now s orderId).2 = MarkPaidResult.updateFailed ∧
    (markPaid true now s orderId).1.products = decrementItems s.products ord.items ∧
    (markPaid true now s orderId).1.orders = s.orders ∧
    (markPaid false now2 (markPaid true now s orderId).1 orderId).1.products
      = decrementItems (decrementItems s.products ord.items) ord.items ∧
    (markPaid false now2 (markPaid true now s orderId).1 orderId).2
      = MarkPaidResult.paidOk := by
  have h1 : markPaid true now s orderId
      = ({ orders := s.orders, products := decrementItems s.products ord.items },
         MarkPaidResult.updateFailed) := by
    simp [markPaid, hord, hstat]
  rw [h1]
  refine ⟨rfl, rfl, rfl, ?_, ?_⟩
  · simp [markPaid, hord, hstat]
  · simp [markPaid, hord, hstat]

theorem markPaid_update_failure_redecrements_witness :
    (markPaid true 7 db0 "o1").2 = MarkPaidResult.updateFailed ∧
    (markPaid true 7 db0 "o1").1.products "p1" = some 0 ∧
    (markPaid false 9 (markPaid true 7 db0 "o1").1 "o1").2 = MarkPaidResult.paidOk := by
  have h := markPaid_update_failure_redecrements db0 "o1" ord0 7 9 (by rfl) (by decide)
  refine ⟨h.1, ?_, h.2.2.2.2⟩
  rw [h.2.1]
  decide

/-- Once the completion flag is set, no later poll observation fires the
callback again. -/
lemma pollFiresFrom_triggered (statuses : List String) :
    ∀ i, pollFiresFrom i true statuses = [] := by
  induction statuses with
  | nil =>
    intro i
    rfl
  | cons s rest ih =>
    intro i
    simp [pollFiresFrom, ih]

/-- Starting untriggered, the callback fires exactly at the offset of the
first terminal-equivalent observation when one exists. -/
lemma pollFiresFrom_untriggered (statuses : List String)
    (h : statuses.any terminalEquiv = true) :
    ∀ i, pollFiresFrom i false statuses = [i + statuses.findIdx terminalEquiv] := by
  induction statuses with
  | nil => simp at h
  | cons s rest ih =>
    intro i
    by_cases hs : terminalEquiv s = true
    · simp [pollFiresFrom, hs, pollFiresFrom_triggered, List.findIdx_cons]
    · have hs0 : terminalEquiv s = false := by
        simpa using hs
      have hrest : rest.any terminalEquiv = true := by
        rcases List.any_eq_true.mp h with ⟨x, hx, hterm⟩
        rcases List.mem_cons.mp hx with heq | hmem
        · rw [heq] at hterm
          exact absurd hterm (by simp [hs0])
        · exact List.any_eq_true.mpr ⟨x, hmem, hterm⟩
      have hstep : pollFiresFrom i false (s :: rest) = pollFiresFrom (i + 1) false rest := by
        simp [pollFiresFrom, hs0]
      rw [hstep, ih hrest (i + 1), List.findIdx_cons, hs0]
      simp only [cond_false]
      congr 1
      omega

/-- C3: over any sequence of invoice statuses observed by the payment-screen
poller that contains a terminal-equivalent status ("Settled" or
"Processing"), the completion callback fires exactly once, at the first
such observation; later terminal-equivalent observations never fire it
again. -/
theorem poll_completion_fires_once (statuses : List String)
    (h : statuses.any terminalEquiv = true) :
    pollFireIndices statuses = [statuses.findIdx terminalEquiv] ∧
    (pollFireIndices statuses).length = 1 := by
  unfold pollFireIndices
  rw [pollFiresFrom_untriggered statuses h 0]
  simp

theorem poll_completion_fires_once_witness :
    pollFireIndices ["New", "Processing", "Settled"] = [1] := by
  have h := poll_completion_fires_once ["New", "Processing", "Settled"] (by decide)
  rw [h.1]
  decide

/-- C5 counterexample: the claim says preference "bitcoin" yields the
on-chain plus lightning method codes, but the filter the source sends for
"bitcoin" is the single code BTC — no lightning method code is ever
produced anywhere in the route. -/
theorem paymentMethodsFor_bitcoin_single :
    paymentMethodsFor (some "bitcoin") = ["BTC"] ∧
    (paymentMethodsFor (some "bitcoin")).length = 1 := by
  decide

/-- C5 (amended): preference "bitcoin" yields only the single on-chain
method code BTC, preference "monero" yields the XMR method code, and an
unset preference yields both currencies' codes. -/
theorem paymentMethodsFor_by_preference :
    paymentMethodsFor (some "bitcoin") = ["BTC"] ∧
    paymentMethodsFor (some "monero") = ["XMR"] ∧
    paymentMethodsFor none = ["BTC", "XMR"] := by
  decide

/-- Reassociation of the conjunction of selection tests, used to compare
the sweep query with the selection the spec sentence describes. -/
lemma bool_and_reorder (a b c d e : Bool) :
    ((((a && b) && c) && d) && e) = ((((a && b) && d) && e) && c) := by
  cases a <;> cases b <;> cases c <;> cases d <;> cases e <;> rfl

/-- C9 counterexample: an order whose scheduled timestamp is in the past,
sent timestamp absent and tracking fields populated, but whose shipping
email is missing, satisfies the claim's selection condition yet is NOT
selected by the sweep query, which additionally requires a non-null
shipping email. -/
theorem sweep_skips_email_missing_order :
    specSweepSelects 3600 emailLessOrder = true ∧
    sweepSelects 3600 emailLessOrder = false := by
  decide

/-- C9 (amended): the sweep selects exactly the orders whose scheduled
timestamp is set and in the past, whose sent timestamp is absent, whose
tracking fields are populated AND whose shipping email is present; each
selected order gets the shipping email and, only on successful send, the
sent timestamp — a successfully processed order is never selected again,
while a failed send leaves the order unchanged and eligible for retry. -/
theorem sweep_selection_idempotent (now sentTime : ℤ) (o : SweepOrder)
    (sendOk : String → Bool) :
    sweepSelects now o = (specSweepSelects now o && o.shipping_email.isSome) ∧
    (sendOk o.id = true →
        (processOrder sendOk sentTime o).shipping_notification_sent_at = some sentTime ∧
        ∀ now2, sweepSelects now2 (processOrder sendOk sentTime o) = false) ∧
    (sendOk o.id = false → processOrder sendOk sentTime o = o) ∧
    (∀ orders : List SweepOrder,
        sweep sendOk now sentTime orders
          = orders.map (fun o2 =>
              if sweepSelects now o2 then processOrder sendOk sentTime o2 else o2)) := by
  refine ⟨?_, ?_, ?_, fun orders => rfl⟩
  · unfold sweepSelects specSweepSelects
    exact bool_and_reorder _ _ _ _ _
  · intro hsend
    unfold processOrder
    rw [if_pos hsend]
    refine ⟨rfl, fun now2 => ?_⟩
    simp [sweepSelects]
  · intro hsend
    unfold processOrder
    rw [if_neg]
    simp [hsend]

theorem sweep_selection_idempotent_witness :
    sweepSelects 3600 scenD = true ∧
    (processOrder (fun _ => true) 3600 scenD).shipping_notification_sent_at = some 3600 ∧
    sweepSelects 7200 (processOrder (fun _ => true) 3600 scenD) = false := by
  have h := sweep_selection_idempotent 3600 3600 scenD (fun _ => true)
  have h2 := h.2.1 (by rfl)
  exact ⟨by decide, h2.1, h2.2 7200⟩

end SymphonyLabs
